import Mathlib

/-!
Verification of the shopping-list microservice platform against its
natural-language specification.

The definitions below are a shallow embedding of the JavaScript sources:

* the API gateway's circuit breaker (`isCircuitOpen`, `recordFailure`,
  `resetCircuitBreaker`), its proxy path rewriting and its downstream
  error classification (api-gateway server);
* the aggregated dashboard endpoint (`getDashboard`);
* the RabbitMQ publisher (`publish` in the shared RabbitMQService);
* the list-service item mutations and `recalculateSummary`;
* the item-service soft delete together with its read endpoints.

JS `Date.now()` timestamps are modelled as `Nat` milliseconds, JS strings
as `String` (or `List Char` where first-occurrence substring surgery is
needed), JS numbers used as counters/quantities as `Nat`/`Int`.
-/

namespace ShoppingMS

/-! ## Circuit breaker (api-gateway, `circuitBreakers` map)

The gateway holds a `Map` from downstream service name to a breaker record
`{ failures, isOpen, isHalfOpen, lastFailure }`.  `lastFailure` starts as
`null` (here `none`); JS coerces `null` to `0` in the subtraction inside
`isCircuitOpen`, which `Option.getD 0` mirrors. -/

structure Breaker where
  failures : Nat
  isOpen : Bool
  isHalfOpen : Bool
  lastFailure : Option Nat
deriving Repr, DecidableEq

/-- The default breaker record created on first `recordFailure`:
`{ failures: 0, isOpen: false, isHalfOpen: false, lastFailure: null }`. -/
def Breaker.initial : Breaker :=
  { failures := 0, isOpen := false, isHalfOpen := false, lastFailure := none }

/-- The gateway's `circuitBreakers` map, one entry per downstream name. -/
abbrev BreakerMap := String → Option Breaker

/-- The map of a freshly constructed gateway: no breaker for any name. -/
def noBreakers : BreakerMap := fun _ => none

/-- `circuitBreakers.set(name, b)`. -/
def BreakerMap.set (m : BreakerMap) (name : String) (b : Breaker) : BreakerMap :=
  fun n => if n = name then some b else m n

/-- `isCircuitOpen(serviceName)` (api-gateway).  Returns the boolean the JS
function returns together with the map after its in-place mutation: an open
breaker whose last failure lies more than 30000 ms in the past flips to
half-open (`isOpen := false`, `isHalfOpen := true`) and the call reports the
circuit as not open. -/
def isCircuitOpen (m : BreakerMap) (name : String) (now : Nat) : Bool × BreakerMap :=
  match m name with
  | none => (false, m)
  | some breaker =>
    if breaker.isOpen ∧ 30000 < now - breaker.lastFailure.getD 0 then
      (false, m.set name { breaker with isOpen := false, isHalfOpen := true })
    else
      (breaker.isOpen, m)

/-- The per-record step of `recordFailure`: increment `failures`, stamp
`lastFailure`, and open the breaker once `failures >= 3`. -/
def recordStep (b0 : Breaker) (now : Nat) : Breaker :=
  let b1 := { b0 with failures := b0.failures + 1, lastFailure := some now }
  if 3 ≤ b1.failures then { b1 with isOpen := true, isHalfOpen := false } else b1

/-- `recordFailure(serviceName)` (api-gateway): fetch the record (or the
fresh default), apply `recordStep`, store it back. -/
def recordFailure (m : BreakerMap) (name : String) (now : Nat) : BreakerMap :=
  m.set name (recordStep ((m name).getD Breaker.initial) now)

/-- `resetCircuitBreaker(serviceName)` (api-gateway): if a record exists,
zero `failures` and clear both flags (`lastFailure` is left untouched). -/
def resetCircuitBreaker (m : BreakerMap) (name : String) : BreakerMap :=
  match m name with
  | none => m
  | some b => m.set name { b with failures := 0, isOpen := false, isHalfOpen := false }

lemma BreakerMap.set_self (m : BreakerMap) (name : String) (b : Breaker) :
    (m.set name b) name = some b := by
  simp [BreakerMap.set]

lemma recordFailure_self (m : BreakerMap) (name : String) (t : Nat) :
    (recordFailure m name t) name = some (recordStep ((m name).getD Breaker.initial) t) := by
  simp [recordFailure, BreakerMap.set_self]

lemma recordStep_failures (b : Breaker) (t : Nat) :
    (recordStep b t).failures = b.failures + 1 := by
  unfold recordStep
  by_cases h : 3 ≤ b.failures + 1 <;> simp [h]

lemma recordStep_lastFailure (b : Breaker) (t : Nat) :
    (recordStep b t).lastFailure = some t := by
  unfold recordStep
  by_cases h : 3 ≤ b.failures + 1 <;> simp [h]

lemma recordStep_below (b : Breaker) (t : Nat) (h : b.failures + 1 < 3) :
    recordStep b t
      = { b with failures := b.failures + 1, lastFailure := some t } := by
  unfold recordStep
  simp [Nat.not_le.mpr h]

lemma recordStep_reach (b : Breaker) (t : Nat) (h : 3 ≤ b.failures + 1) :
    recordStep b t
      = { failures := b.failures + 1, isOpen := true, isHalfOpen := false,
          lastFailure := some t } := by
  unfold recordStep
  simp [h]

lemma recordStep_opens (b : Breaker) (t : Nat) (h : 3 ≤ b.failures) :
    (recordStep b t).isOpen = true := by
  rw [recordStep_reach b t (Nat.le_succ_of_le h)]

/-- Claim C1: for every downstream service name, after 3 consecutive
`recordFailure` calls with no intervening `resetCircuitBreaker` (starting from
a name with no breaker record), the breaker is open: `isCircuitOpen` returns
`true` at every instant whose distance from the last recorded failure is at
most 30 seconds, and it returns `true` at no instant before the third failure
is recorded. -/
theorem circuit_opens_after_three_failures
    (m0 : BreakerMap) (name : String) (t1 t2 t3 now : Nat)
    (h0 : m0 name = none) (_hle : t3 ≤ now) (hwin : now - t3 ≤ 30000) :
    (isCircuitOpen (recordFailure (recordFailure (recordFailure m0 name t1) name t2) name t3)
        name now).1 = true
    ∧ (∀ k, (isCircuitOpen (recordFailure m0 name t1) name k).1 = false)
    ∧ (∀ k, (isCircuitOpen (recordFailure (recordFailure m0 name t1) name t2) name k).1
        = false) := by
  have h1 : (recordFailure m0 name t1) name
      = some { failures := 1, isOpen := false, isHalfOpen := false, lastFailure := some t1 } := by
    rw [recordFailure_self, h0]
    simp [Breaker.initial, recordStep_below]
  have h2 : (recordFailure (recordFailure m0 name t1) name t2) name
      = some { failures := 2, isOpen := false, isHalfOpen := false, lastFailure := some t2 } := by
    rw [recordFailure_self, h1]
    simp [recordStep_below]
  have h3 : (recordFailure (recordFailure (recordFailure m0 name t1) name t2) name t3) name
      = some { failures := 3, isOpen := true, isHalfOpen := false, lastFailure := some t3 } := by
    rw [recordFailure_self, h2]
    simp [recordStep_reach]
  refine ⟨?_, ?_, ?_⟩
  · rw [isCircuitOpen, h3]
    have hcond : ¬ 30000 < now - t3 := Nat.not_lt.mpr hwin
    simp [hcond]
  · intro k
    rw [isCircuitOpen, h1]
    simp
  · intro k
    rw [isCircuitOpen, h2]
    simp

/-- Witness for C1 at concrete inputs: three failures on `item-service`
recorded at t = 100, 200, 300 ms leave the circuit open when probed at
t = 30100 ms (29.8 s after the last failure). -/
theorem circuit_opens_after_three_failures_witness :
    (isCircuitOpen
        (recordFailure (recordFailure (recordFailure noBreakers "item-service" 100)
          "item-service" 200) "item-service" 300)
        "item-service" 30100).1 = true :=
  (circuit_opens_after_three_failures noBreakers "item-service" 100 200 300 30100
    rfl (by decide) (by decide)).1

/-- A breaker map holding one tripped breaker for `list-service`: three
failures, open, last failure at t = 0 ms. -/
def trippedBreakers : BreakerMap :=
  BreakerMap.set noBreakers "list-service"
    { failures := 3, isOpen := true, isHalfOpen := false, lastFailure := some 0 }

/-- Counterexample to claim C2: with the breaker for `list-service` open
since t = 0, the first `isCircuitOpen` probe at t = 30001 ms flips the
breaker to half-open and admits the call (returns `false`), but a second
probe at t = 30002 ms — before any outcome of the trial call is recorded —
is also admitted (`isCircuitOpen` again returns `false`), instead of being
rejected as the claim states: the code never consults `isHalfOpen`, so the
half-open breaker does not limit admission to a single trial call. -/
theorem half_open_admits_second_call :
    (isCircuitOpen trippedBreakers "list-service" 30001).1 = false
    ∧ (isCircuitOpen (isCircuitOpen trippedBreakers "list-service" 30001).2
        "list-service" 30002).1 = false := by
  constructor <;> decide

/-- Claim C2 (amended): for every open breaker with at least the threshold
number of failures, once more than 30 seconds have elapsed since the last
recorded failure the next `isCircuitOpen` call admits the request and flips
the breaker to half-open; every further call arriving before the trial's
outcome is recorded is ALSO admitted (the half-open state does not limit
admission to one trial call); the trial's success (`resetCircuitBreaker`)
closes the breaker and zeroes `failureCount`, and the trial's failure
(`recordFailure`) reopens the breaker immediately. -/
theorem half_open_cycle
    (m : BreakerMap) (name : String) (b : Breaker) (t now : Nat)
    (hb : m name = some b) (hopen : b.isOpen = true)
    (hlast : b.lastFailure = some t) (hth : 3 ≤ b.failures)
    (helapsed : 30000 < now - t) :
    (isCircuitOpen m name now).1 = false
    ∧ ((isCircuitOpen m name now).2) name
        = some { b with isOpen := false, isHalfOpen := true }
    ∧ (∀ k, (isCircuitOpen (isCircuitOpen m name now).2 name k).1 = false)
    ∧ (resetCircuitBreaker (isCircuitOpen m name now).2 name) name
        = some { b with failures := 0, isOpen := false, isHalfOpen := false }
    ∧ (∀ k, ((recordFailure (isCircuitOpen m name now).2 name k) name).map Breaker.isOpen
        = some true) := by
  have hflip : isCircuitOpen m name now
      = (false, m.set name { b with isOpen := false, isHalfOpen := true }) := by
    rw [isCircuitOpen, hb]
    simp [hopen, hlast, helapsed]
  have hhalf : ((isCircuitOpen m name now).2) name
      = some { b with isOpen := false, isHalfOpen := true } := by
    rw [hflip]
    exact BreakerMap.set_self _ _ _
  refine ⟨by rw [hflip], hhalf, ?_, ?_, ?_⟩
  · intro k
    rw [isCircuitOpen, hhalf]
    simp
  · rw [resetCircuitBreaker.eq_def, hhalf]
    exact BreakerMap.set_self _ _ _
  · intro k
    rw [recordFailure_self, hhalf]
    simp [recordStep_opens, hth]

/-- Witness for C2 (amended) at concrete inputs: the tripped `list-service`
breaker probed at t = 30001 ms admits the call, flips to half-open, admits a
second probe at t = 30002 ms, closes with zeroed failures on reset, and
reopens on a recorded failure at t = 30003 ms. -/
theorem half_open_cycle_witness :
    (isCircuitOpen trippedBreakers "list-service" 30001).1 = false
    ∧ ((isCircuitOpen trippedBreakers "list-service" 30001).2) "list-service"
        = some { failures := 3, isOpen := false, isHalfOpen := true, lastFailure := some 0 }
    ∧ (isCircuitOpen (isCircuitOpen trippedBreakers "list-service" 30001).2
        "list-service" 30002).1 = false
    ∧ (resetCircuitBreaker (isCircuitOpen trippedBreakers "list-service" 30001).2
        "list-service") "list-service"
        = some { failures := 0, isOpen := false, isHalfOpen := false, lastFailure := some 0 }
    ∧ ((recordFailure (isCircuitOpen trippedBreakers "list-service" 30001).2
        "list-service" 30003) "list-service").map Breaker.isOpen = some true := by
  have h := half_open_cycle trippedBreakers "list-service"
    { failures := 3, isOpen := true, isHalfOpen := false, lastFailure := some 0 }
    0 30001 (by decide) rfl rfl (by decide) (by decide)
  exact ⟨h.1, h.2.1, h.2.2.1 30002, h.2.2.2.1, h.2.2.2.2 30003⟩

/-! ## Gateway proxying: downstream outcome classification (api-gateway,
`proxyRequest`)

The proxied axios call carries `timeout: 5000` and
`validateStatus: (status) => status < 500`, so an answered request with
status `< 500` resolves, an answered request with status `>= 500` rejects
with `error.response` set, and a transport failure rejects with
`error.code` set and no response.  The catch block first calls
`recordFailure`, then classifies the error. -/

/-- `config.timeout` of every proxied downstream call (ms). -/
def proxyTimeoutMs : Nat := 5000

/-- The shape of an axios rejection as consumed by `proxyRequest`'s catch
block: a transport error code (`ECONNREFUSED`, `ETIMEDOUT`, ...), a message,
and the downstream response when the downstream answered. -/
structure AxiosError where
  code : Option String
  errMessage : String
  response : Option (Nat × String)
deriving Repr, DecidableEq

/-- What the downstream call did: answered with an HTTP status and body, or
failed at the transport layer with an error code. -/
inductive DownstreamResult where
  | answered (status : Nat) (body : String)
  | transportFailure (code : String) (msg : String)
deriving Repr, DecidableEq

/-- Axios resolution under `validateStatus: (status) => status < 500`:
answered statuses below 500 resolve; answered statuses of 500 and above
reject carrying the response; transport failures reject carrying the code. -/
def axiosOutcome : DownstreamResult → Except AxiosError (Nat × String)
  | .answered s b =>
      if s < 500 then .ok (s, b)
      else .error { code := none,
                    errMessage := "Request failed with status code " ++ toString s,
                    response := some (s, b) }
  | .transportFailure c msg =>
      .error { code := some c, errMessage := msg, response := none }

/-- The gateway's reply to the client: the relayed downstream status/body on
pass-through, or a gateway-built JSON error object (`message` is the JSON
`message` field, `errorField` the JSON `error` field). -/
structure ProxyReply where
  status : Nat
  relayedBody : Option String
  message : Option String
  errorField : Option String
deriving Repr, DecidableEq

/-- The tail of `proxyRequest` (api-gateway) after target resolution: run the
downstream call, then either relay the response and reset the breaker, or —
in the catch block — record a breaker failure and classify: transport codes
`ECONNREFUSED`/`ETIMEDOUT` map to a 503 naming the service and carrying the
code, an `error.response` is relayed unchanged, anything else becomes 500. -/
def proxyRequestOutcome (m : BreakerMap) (serviceName : String) (now : Nat)
    (d : DownstreamResult) : ProxyReply × BreakerMap :=
  match axiosOutcome d with
  | .ok (s, b) =>
      ({ status := s, relayedBody := some b, message := none, errorField := none },
       resetCircuitBreaker m serviceName)
  | .error e =>
      let m2 := recordFailure m serviceName now
      if e.code = some "ECONNREFUSED" ∨ e.code = some "ETIMEDOUT" then
        ({ status := 503, relayedBody := none,
           message := some ("Serviço " ++ serviceName ++ " indisponível"),
           errorField := e.code }, m2)
      else
        match e.response with
        | some (s, b) =>
            ({ status := s, relayedBody := some b, message := none, errorField := none }, m2)
        | none =>
            ({ status := 500, relayedBody := none,
               message := some "Erro interno do gateway",
               errorField := some e.errMessage }, m2)

/-- Claim C3: a proxied request whose downstream call ends in a transport
failure (connection refused, or timeout at the fixed 5 s limit) is answered
with status 503 — never 500 — carrying the stable transport error code and
the originating service name, and a breaker failure is recorded for that
service. -/
theorem transport_failure_maps_to_503
    (m : BreakerMap) (serviceName msg : String) (now : Nat) :
    (∀ c, c = "ECONNREFUSED" ∨ c = "ETIMEDOUT" →
      proxyRequestOutcome m serviceName now (.transportFailure c msg)
        = ({ status := 503, relayedBody := none,
             message := some ("Serviço " ++ serviceName ++ " indisponível"),
             errorField := some c }, recordFailure m serviceName now))
    ∧ proxyTimeoutMs = 5000 := by
  refine ⟨?_, rfl⟩
  intro c hc
  rcases hc with rfl | rfl <;> rfl

/-- Witness for C3 at concrete inputs: a connection-refused failure of
`item-service` at t = 0 on an empty breaker map. -/
theorem transport_failure_maps_to_503_witness :
    proxyRequestOutcome noBreakers "item-service" 0
        (.transportFailure "ECONNREFUSED" "connect ECONNREFUSED 127.0.0.1:3003")
      = ({ status := 503, relayedBody := none,
           message := some "Serviço item-service indisponível",
           errorField := some "ECONNREFUSED" }, recordFailure noBreakers "item-service" 0) :=
  (transport_failure_maps_to_503 noBreakers "item-service"
      "connect ECONNREFUSED 127.0.0.1:3003" 0).1
    "ECONNREFUSED" (Or.inl rfl)

/-- Counterexample to claim C4: the downstream answers with HTTP 500 (an
application error); the gateway does relay status and body unchanged, but the
catch block has already called `recordFailure`, so the breaker for the
service holds one recorded failure instead of being reset: a request the
downstream answered did record a breaker failure. -/
theorem answered_5xx_records_failure :
    (proxyRequestOutcome noBreakers "item-service" 7 (.answered 500 "boom")).1
      = { status := 500, relayedBody := some "boom", message := none, errorField := none }
    ∧ ((proxyRequestOutcome noBreakers "item-service" 7 (.answered 500 "boom")).2)
        "item-service"
      = some { failures := 1, isOpen := false, isHalfOpen := false, lastFailure := some 7 } := by
  constructor <;> decide

/-- Claim C4 (amended): for every proxied request the downstream answered —
any status, 4xx and 5xx included — the gateway relays that status code and
body to the client unchanged; it resets the breaker (zeroing `failureCount`
and closing it) exactly when the status is below 500 (the axios
`validateStatus` threshold), while an answered status of 500 or above is
still relayed unchanged but records a breaker failure instead of resetting. -/
theorem answered_status_relayed
    (m : BreakerMap) (serviceName body : String) (now s : Nat) :
    proxyRequestOutcome m serviceName now (.answered s body)
      = ({ status := s, relayedBody := some body, message := none, errorField := none },
         if s < 500 then resetCircuitBreaker m serviceName
         else recordFailure m serviceName now) := by
  by_cases h : s < 500 <;> simp [proxyRequestOutcome, axiosOutcome, h]

/-! ## Gateway proxying: path rewriting (api-gateway, `proxyRequest`)

`req.originalUrl` is rewritten with JS `String.prototype.replace` with a
string pattern, which replaces only the FIRST occurrence; paths are modelled
as `List Char` to embed that surgery exactly. -/

/-- JS `s.replace(pat, rep)` with a string pattern: replace the first
occurrence of `pat`, leave the string unchanged when `pat` does not occur. -/
def replaceFirstL (pat rep : List Char) : List Char → List Char
  | [] => if pat.isPrefixOf ([] : List Char) then rep else []
  | c :: cs =>
      if pat.isPrefixOf (c :: cs) then rep ++ (c :: cs).drop pat.length
      else c :: replaceFirstL pat rep cs

/-- JS `s.includes(sub)`: `sub` occurs contiguously somewhere in `s`. -/
def containsSeq (pat : List Char) : List Char → Bool
  | [] => pat.isEmpty
  | c :: cs => pat.isPrefixOf (c :: cs) || containsSeq pat cs

/-- The per-service prefix replacements of `proxyRequest`:
`user-service` chains `/api/users -> /users` then `/api/auth -> /auth`;
`item-service` maps `/api/items -> /items`; `list-service` maps
`/api/lists -> /lists`. -/
def stripApiPrefix (serviceName : String) (originalUrl : List Char) : List Char :=
  if serviceName = "user-service" then
    replaceFirstL "/api/auth".toList "/auth".toList
      (replaceFirstL "/api/users".toList "/users".toList originalUrl)
  else if serviceName = "item-service" then
    replaceFirstL "/api/items".toList "/items".toList originalUrl
  else if serviceName = "list-service" then
    replaceFirstL "/api/lists".toList "/lists".toList originalUrl
  else originalUrl

/-- `if (!targetPath.startsWith("/")) targetPath = "/" + targetPath`. -/
def ensureLeadingSlash (t : List Char) : List Char :=
  if ['/'].isPrefixOf t then t else '/' :: t

/-- The `targetPath === "/"` fallback of `proxyRequest`: back to the
resource's base path (`/items`, `/lists`, or `/users` when the original URL
mentions `users`), otherwise the path stays `/`. -/
def baseFallback (serviceName : String) (originalUrl : List Char) : List Char :=
  if serviceName = "item-service" then "/items".toList
  else if serviceName = "list-service" then "/lists".toList
  else if serviceName = "user-service" ∧ containsSeq "users".toList originalUrl then
    "/users".toList
  else ['/']

/-- The complete path-rewriting pipeline of `proxyRequest`: strip the
gateway's resource prefix, force a leading slash, fall back to the base path
when the result is exactly `/`. -/
def rewriteTargetPath (serviceName : String) (originalUrl : List Char) : List Char :=
  let t := ensureLeadingSlash (stripApiPrefix serviceName originalUrl)
  if t = ['/'] then baseFallback serviceName originalUrl else t

/-- The forwarded URL: `service.url` followed by the rewritten path. -/
def targetUrl (serviceUrl : String) (serviceName : String) (originalUrl : List Char) :
    List Char :=
  serviceUrl.toList ++ rewriteTargetPath serviceName originalUrl

lemma ensureLeadingSlash_head (t : List Char) :
    (ensureLeadingSlash t).head? = some '/' := by
  unfold ensureLeadingSlash
  match t with
  | [] => rfl
  | c :: cs =>
      by_cases h : '/' = c
      · subst h
        simp [List.isPrefixOf]
      · simp [List.isPrefixOf, h]

lemma baseFallback_head (serviceName : String) (originalUrl : List Char) :
    (baseFallback serviceName originalUrl).head? = some '/' := by
  unfold baseFallback
  split
  · rfl
  · split
    · rfl
    · split
      · rfl
      · rfl

/-- Claim C5: path rewriting always yields a non-empty path starting with
`/` (its first character is `/`); a request to `/api/items/abc` is forwarded
to `<item-service-url>/items/abc`, and a request to `/api/lists` with no
trailing path is forwarded to `<list-service-url>/lists`. -/
theorem path_rewriting_correct :
    (∀ (serviceName : String) (originalUrl : List Char),
        (rewriteTargetPath serviceName originalUrl).head? = some '/')
    ∧ (∀ url : String,
        targetUrl url "item-service" "/api/items/abc".toList
          = url.toList ++ "/items/abc".toList)
    ∧ (∀ url : String,
        targetUrl url "list-service" "/api/lists".toList
          = url.toList ++ "/lists".toList) := by
  refine ⟨?_, ?_, ?_⟩
  · intro serviceName originalUrl
    unfold rewriteTargetPath
    by_cases h : ensureLeadingSlash (stripApiPrefix serviceName originalUrl) = ['/']
    · simp [h, baseFallback_head]
    · simp [h, ensureLeadingSlash_head]
  · intro url
    unfold targetUrl
    norm_num [rewriteTargetPath, stripApiPrefix, ensureLeadingSlash]
    decide
  · intro url
    unfold targetUrl
    norm_num [rewriteTargetPath, stripApiPrefix, ensureLeadingSlash]
    decide

/-! ## Aggregated dashboard (api-gateway, `getDashboard`)

`getDashboard` requires an `Authorization` header (else 401), then awaits
`Promise.allSettled` over three independent `callService` calls (the
caller's lists, a capped page of recent items, the category list) and builds
one section per branch.  `Settled` is the outcome of one settled promise. -/

/-- One outcome of `Promise.allSettled`: fulfilled with a value, or rejected
with a reason. -/
inductive Settled (α : Type) where
  | fulfilled (value : α)
  | rejected (reason : String)

/-- The `my_lists` section: `available`, `count` (full length), `data`
(first three lists, or `null`). -/
structure MyListsSection (α : Type) where
  available : Bool
  count : Nat
  data : Option (List α)
deriving Repr

/-- A plain dashboard section: `available` and `data` (or `null`). -/
structure DashSection (α : Type) where
  available : Bool
  data : Option α
deriving Repr

/-- The `data` object of the dashboard response. -/
structure DashboardData (α β γ : Type) where
  my_lists : MyListsSection α
  recent_items : DashSection β
  categories : DashSection γ
deriving Repr

/-- The section assembly of `getDashboard` from the three settled results. -/
def buildDashboard {α β γ : Type} (listsRes : Settled (List α)) (itemsRes : Settled β)
    (categoriesRes : Settled γ) : DashboardData α β γ :=
  { my_lists :=
      { available := match listsRes with | .fulfilled _ => true | .rejected _ => false
        count := match listsRes with | .fulfilled v => v.length | .rejected _ => 0
        data := match listsRes with | .fulfilled v => some (v.take 3) | .rejected _ => none }
    recent_items :=
      { available := match itemsRes with | .fulfilled _ => true | .rejected _ => false
        data := match itemsRes with | .fulfilled v => some v | .rejected _ => none }
    categories :=
      { available := match categoriesRes with | .fulfilled _ => true | .rejected _ => false
        data := match categoriesRes with | .fulfilled v => some v | .rejected _ => none } }

/-- `getDashboard` (api-gateway): 401 without an `Authorization` header;
otherwise HTTP 200 with `success: true` and the assembled sections.  The
result is (status, success flag, dashboard data). -/
def getDashboard {α β γ : Type} (authHeader : Option String) (listsRes : Settled (List α))
    (itemsRes : Settled β) (categoriesRes : Settled γ) :
    Nat × Bool × Option (DashboardData α β γ) :=
  match authHeader with
  | none => (401, false, none)
  | some _ => (200, true, some (buildDashboard listsRes itemsRes categoriesRes))

/-- Claim C6: on an authenticated dashboard request where exactly one of the
three branches fails, the endpoint answers with overall success (HTTP 200,
`success: true`), the failed branch's section has `available: false` and
null data, and the two fulfilled branches carry their populated data; no
section is ever absent or corrupted by another branch's failure. -/
theorem dashboard_partial_failure {α β γ : Type} (tok e : String)
    (lv : List α) (iv : β) (cv : γ) :
    getDashboard (some tok) (Settled.rejected e : Settled (List α))
        (Settled.fulfilled iv) (Settled.fulfilled cv)
      = (200, true, some
          { my_lists := { available := false, count := 0, data := none }
            recent_items := { available := true, data := some iv }
            categories := { available := true, data := some cv } })
    ∧ getDashboard (some tok) (Settled.fulfilled lv)
        (Settled.rejected e : Settled β) (Settled.fulfilled cv)
      = (200, true, some
          { my_lists := { available := true, count := lv.length, data := some (lv.take 3) }
            recent_items := { available := false, data := none }
            categories := { available := true, data := some cv } })
    ∧ getDashboard (some tok) (Settled.fulfilled lv) (Settled.fulfilled iv)
        (Settled.rejected e : Settled γ)
      = (200, true, some
          { my_lists := { available := true, count := lv.length, data := some (lv.take 3) }
            recent_items := { available := true, data := some iv }
            categories := { available := false, data := none } }) :=
  ⟨rfl, rfl, rfl⟩

/-! ## Checkout (list-service route `POST /lists/:id/checkout`) -/

/-- Modelled from the spec: the list-service checkout handler
(`POST /lists/:id/checkout`) is code of this repository that is not present
under src/ — only its callers are (the gateway route proxying `/api/lists`
to the list service, the client demo asserting HTTP 202, and the README
documenting `202 Accepted`).  Per the spec, when the list exists and is
owned by the authenticated caller the handler answers `202 Accepted`
immediately; the broker publish is fire-and-forget, so the status does not
depend on the publish outcome. -/
def checkoutStatus (listExistsAndOwned : Bool) (_publishAccepted : Bool) : Nat :=
  if listExistsAndOwned then 202 else 404

/-- Claim C7: for every list presented by its authenticated owner, the
checkout endpoint answers 202 Accepted regardless of the publish outcome. -/
theorem checkout_returns_202 : ∀ pub : Bool, checkoutStatus true pub = 202 :=
  fun _ => rfl

/-! ## Event publisher (shared RabbitMQService: `connect`, `publish`)

`connect` is guarded by its own try/catch (a failure only schedules a
retry), and the whole body of `publish` after the channel test sits inside a
try/catch that returns `false`, so `publish` can only return a boolean.
`BrokerEnv` injects the environment's behaviour: whether `amqp.connect`
succeeds, and what `channel.publish` does (returns a boolean, or throws). -/

/-- Behaviour of `channel.publish`: returns a boolean (`true` = accepted
into the channel buffer), or throws. -/
inductive ChannelResult where
  | ok (accepted : Bool)
  | err (msg : String)
deriving Repr, DecidableEq

/-- The broker environment a `publish` call runs against. -/
structure BrokerEnv where
  connectSucceeds : Bool
  channelAccepts : ChannelResult

/-- The connection state of the singleton RabbitMQService: `connection` and
`channel` are `null` or live. -/
structure MQState where
  connection : Bool
  channel : Bool
deriving Repr, DecidableEq

/-- `connect()`: a no-op when a connection exists; otherwise it establishes
connection and channel, and on failure the catch block leaves the state
unchanged (scheduling a retry). -/
def connect (st : MQState) (env : BrokerEnv) : MQState :=
  if st.connection then st
  else if env.connectSucceeds then { connection := true, channel := true }
  else st

/-- `publish(routingKey, message)`: connect first if no channel is present;
with a live channel and connection, forward `channel.publish`'s boolean and
turn a thrown error into `false`; without them return `false`.  The
`Except` layer records whether an exception escapes to the caller (it never
does). -/
def publish (st : MQState) (env : BrokerEnv) : Except String Bool × MQState :=
  let st2 := if st.channel then st else connect st env
  if st2.channel ∧ st2.connection then
    match env.channelAccepts with
    | .ok accepted => (.ok accepted, st2)
    | .err _ => (.ok false, st2)
  else (.ok false, st2)

/-- The boolean `channel.publish` yields once reached (a throw counts as not
accepted, because the catch block returns `false`). -/
def channelAcceptedBool (env : BrokerEnv) : Bool :=
  match env.channelAccepts with
  | .ok accepted => accepted
  | .err _ => false

/-- Claim C8: `publish` never raises to its caller — for every starting
state and broker behaviour it returns `Except.ok` of a boolean — and that
boolean is `true` exactly when a channel and connection are available after
the lazy connect and the broker channel accepted the message; it is `false`
when no channel is available or publishing fails. -/
theorem publish_never_raises (st : MQState) (env : BrokerEnv) :
    (publish st env).1
      = Except.ok ((publish st env).2.channel && (publish st env).2.connection
          && channelAcceptedBool env) := by
  unfold publish
  generalize (if st.channel = true then st else connect st env) = st2
  by_cases h : st2.channel ∧ st2.connection
  · obtain ⟨h1, h2⟩ := h
    cases hacc : env.channelAccepts <;>
      simp [h1, h2, channelAcceptedBool, hacc]
  · rw [if_neg h]
    rcases Decidable.not_and_iff_or_not.mp h with hc | hc <;>
      rw [Bool.not_eq_true] at hc <;> simp [hc]

/-! ## List service: items and summary (`addItemToList`, `updateItemInList`,
`removeItemFromList`, `recalculateSummary`)

Quantities are JS numbers produced by `parseInt`, so they are integers and
may be negative (`parseInt(quantity) || 1` only replaces `0`/`NaN`/absent by
`1`).  Prices are carried as `Int` as well; the claims proved here do not
depend on the numeric carrier.  The JSON-database `update` of the handlers
stores exactly the `items`/`summary` fields the handler computed, so each
operation is embedded as the function from the stored list record to the
stored list record. -/

/-- An entry of `list.items` as built by `addItemToList`. -/
structure ListItem where
  itemId : String
  itemName : String
  quantity : Int
  unit : String
  estimatedPrice : Int
  purchased : Bool
  notes : String
deriving Repr, DecidableEq

/-- `list.summary`. -/
structure Summary where
  totalItems : Int
  purchasedItems : Int
  estimatedTotal : Int
deriving Repr, DecidableEq

/-- A stored shopping-list record (the fields the claims concern). -/
structure ShoppingList where
  items : List ListItem
  summary : Summary
deriving Repr, DecidableEq

/-- `recalculateSummary(list)` (list-service): one pass over `list.items`
accumulating `totalItems += quantity`, `purchasedItems += quantity` when
`purchased`, and `estimatedTotal += quantity * estimatedPrice`. -/
def recalculateSummary (items : List ListItem) : Summary :=
  { totalItems := items.foldl (fun acc i => acc + i.quantity) 0
    purchasedItems := items.foldl (fun acc i => if i.purchased then acc + i.quantity else acc) 0
    estimatedTotal := items.foldl (fun acc i => acc + i.quantity * i.estimatedPrice) 0 }

/-- The catalog data `addItemToList` fetches from the item service. -/
structure ItemData where
  id : String
  name : String
  unit : String
  averagePrice : Int
deriving Repr, DecidableEq

/-- `parseInt(quantity) || 1`: an absent or unparsable quantity — and a
parsed `0`, which is falsy — becomes `1`; any other parsed integer,
negative ones included, is kept. -/
def parsedQuantity : Option Int → Int
  | some q => if q = 0 then 1 else q
  | none => 1

/-- `addItemToList` (list-service), after the item lookup succeeded: push
the new entry (cached name/unit/price, `purchased: false`) and store the
recalculated summary. -/
def addItemToList (l : ShoppingList) (itemData : ItemData) (quantity : Option Int)
    (notes : Option String) : ShoppingList :=
  let newItem : ListItem :=
    { itemId := itemData.id, itemName := itemData.name,
      quantity := parsedQuantity quantity, unit := itemData.unit,
      estimatedPrice := itemData.averagePrice, purchased := false,
      notes := notes.getD "" }
  let items := l.items ++ [newItem]
  { items := items, summary := recalculateSummary items }

/-- JS `findIndex` followed by an in-place update of that single element:
rewrite the first element satisfying `pred` with `f`, or fail when none
does. -/
def updateFirst {α : Type} (pred : α → Bool) (f : α → α) : List α → Option (List α)
  | [] => none
  | x :: xs =>
      if pred x then some (f x :: xs)
      else (updateFirst pred f xs).map (fun ys => x :: ys)

/-- The field updates of `updateItemInList`: quantity when a (truthy) value
was supplied, `purchased` when the field was present, notes when truthy. -/
def applyItemUpdates (q : Option Int) (purch : Option Bool) (notes : Option String)
    (it : ListItem) : ListItem :=
  let it1 := match q with | some v => { it with quantity := v } | none => it
  let it2 := match purch with | some v => { it1 with purchased := v } | none => it1
  match notes with | some v => { it2 with notes := v } | none => it2

/-- `updateItemInList` (list-service): locate the entry by `itemId` (404 —
here `none` — when absent), apply the supplied field updates, store the
recalculated summary. -/
def updateItemInList (l : ShoppingList) (itemId : String) (q : Option Int)
    (purch : Option Bool) (notes : Option String) : Option ShoppingList :=
  match updateFirst (fun i => i.itemId == itemId) (applyItemUpdates q purch notes) l.items with
  | none => none
  | some items => some { items := items, summary := recalculateSummary items }

/-- `removeItemFromList` (list-service): drop every entry with the given
`itemId` and store the recalculated summary. -/
def removeItemFromList (l : ShoppingList) (itemId : String) : ShoppingList :=
  let items := l.items.filter (fun i => !(i.itemId == itemId))
  { items := items, summary := recalculateSummary items }

/-- The freshly created list of `createList`: no items, zero summary. -/
def emptyShoppingList : ShoppingList :=
  { items := [], summary := { totalItems := 0, purchasedItems := 0, estimatedTotal := 0 } }

lemma foldl_purchased_le_total (items : List ListItem) :
    ∀ a b : Int, a ≤ b → (∀ i ∈ items, 0 ≤ i.quantity) →
      items.foldl (fun acc i => if i.purchased then acc + i.quantity else acc) a
        ≤ items.foldl (fun acc i => acc + i.quantity) b := by
  induction items with
  | nil => intro a b hab _; simpa using hab
  | cons x xs ih =>
      intro a b hab hnn
      have hx : 0 ≤ x.quantity := hnn x (List.mem_cons_self x xs)
      have hxs : ∀ i ∈ xs, 0 ≤ i.quantity := fun i hi => hnn i (List.mem_cons_of_mem x hi)
      simp only [List.foldl_cons]
      refine ih _ _ ?_ hxs
      by_cases hp : x.purchased
      · simpa [hp] using add_le_add_right hab x.quantity
      · simp only [hp, if_false]
        calc a ≤ b := hab
          _ ≤ b + x.quantity := le_add_of_nonneg_right hx

/-- A concrete reachable trace violating the claimed inequality: start from
a fresh list, add item `A` with quantity 3, mark it purchased, then add item
`B` with the (parseInt-accepted) quantity `-2`. -/
def negativeQuantityTrace : ShoppingList :=
  addItemToList
    ((updateItemInList
        (addItemToList emptyShoppingList
          { id := "A", name := "Arroz", unit := "kg", averagePrice := 2 } (some 3) none)
        "A" none (some true) none).getD emptyShoppingList)
    { id := "B", name := "Feijao", unit := "kg", averagePrice := 1 } (some (-2)) none

/-- Counterexample to claim C9: the handlers accept negative parsed
quantities (`parseInt(quantity) || 1` keeps `-2`), and on the trace above the
stored summary has `purchasedItems = 3 > 1 = totalItems`, so `purchasedItems`
CAN exceed `totalItems` after a sequence of list-mutating operations. -/
theorem purchased_exceeds_total_reachable :
    negativeQuantityTrace.summary.purchasedItems = 3
    ∧ negativeQuantityTrace.summary.totalItems = 1
    ∧ negativeQuantityTrace.summary.totalItems
        < negativeQuantityTrace.summary.purchasedItems := by
  refine ⟨?_, ?_, ?_⟩ <;> decide

/-- Claim C9 (amended): after every list-mutating operation
(`addItemToList`, `updateItemInList`, `removeItemFromList`) the stored
list's summary equals the recomputation over its items — `totalItems` is
the sum of all item quantities, `purchasedItems` the sum over purchased
items, `estimatedTotal` the sum of quantity times `estimatedPrice`;
consequently `purchasedItems` never exceeds `totalItems` PROVIDED every item
quantity in the list is non-negative (negative parsed quantities, which the
handlers accept, can break the inequality). -/
theorem summary_recomputed_after_mutations :
    (∀ (l : ShoppingList) (d : ItemData) (q : Option Int) (n : Option String),
        (addItemToList l d q n).summary = recalculateSummary (addItemToList l d q n).items)
    ∧ (∀ (l : ShoppingList) (itemId : String) (q : Option Int) (p : Option Bool)
        (n : Option String) (r : ShoppingList),
        updateItemInList l itemId q p n = some r →
          r.summary = recalculateSummary r.items)
    ∧ (∀ (l : ShoppingList) (itemId : String),
        (removeItemFromList l itemId).summary
          = recalculateSummary (removeItemFromList l itemId).items)
    ∧ (∀ items : List ListItem, (∀ i ∈ items, 0 ≤ i.quantity) →
        (recalculateSummary items).purchasedItems ≤ (recalculateSummary items).totalItems) := by
  refine ⟨fun _ _ _ _ => rfl, ?_, fun _ _ => rfl, ?_⟩
  · intro l itemId q p n r h
    unfold updateItemInList at h
    cases hu : updateFirst (fun i => i.itemId == itemId) (applyItemUpdates q p n) l.items with
    | none => rw [hu] at h; exact absurd h (by simp)
    | some items =>
        rw [hu] at h
        simp only [Option.some.injEq] at h
        subst h
        rfl
  · intro items hnn
    exact foldl_purchased_le_total items 0 0 le_rfl hnn

/-- Witness for C9 (amended) at concrete inputs: a list whose single entry
has quantity 2 and is purchased satisfies the inequality, and a concrete
`updateItemInList` call stores a summary equal to its recomputation. -/
theorem summary_recomputed_after_mutations_witness :
    ((updateItemInList
        (addItemToList emptyShoppingList
          { id := "A", name := "Arroz", unit := "kg", averagePrice := 2 } (some 2) none)
        "A" none (some true) none).getD emptyShoppingList).summary
      = recalculateSummary
          ((updateItemInList
              (addItemToList emptyShoppingList
                { id := "A", name := "Arroz", unit := "kg", averagePrice := 2 } (some 2) none)
              "A" none (some true) none).getD emptyShoppingList).items
    ∧ (recalculateSummary
          ((addItemToList emptyShoppingList
            { id := "A", name := "Arroz", unit := "kg", averagePrice := 2 }
            (some 2) none).items)).purchasedItems
        ≤ (recalculateSummary
            ((addItemToList emptyShoppingList
              { id := "A", name := "Arroz", unit := "kg", averagePrice := 2 }
              (some 2) none).items)).totalItems := by
  constructor
  · exact summary_recomputed_after_mutations.2.1
      (addItemToList emptyShoppingList
        { id := "A", name := "Arroz", unit := "kg", averagePrice := 2 } (some 2) none)
      "A" none (some true) none _ rfl
  · exact summary_recomputed_after_mutations.2.2.2
      ((addItemToList emptyShoppingList
        { id := "A", name := "Arroz", unit := "kg", averagePrice := 2 } (some 2) none).items)
      (by decide)

/-! ## Item service: soft delete and read endpoints (item-service server)

The record store is `shared/JsonDatabase`, which is code of this repository
not present under src/; its `findById` / `update` / `find` / `search`
operations are modelled from the spec's record-storage contract
(create/find/update/delete/search/count over JSON records keyed by `id`),
as noted on each definition.  The handlers themselves (`deleteItem`,
`getItem`, `getItems`, `searchItems`) are embedded from the source. -/

/-- A catalog item record as stored by the item service. -/
structure CatalogItem where
  id : String
  name : String
  category : String
  brand : String
  description : String
  active : Bool
  deletedBy : Option String
  deletedAt : Option String
deriving Repr, DecidableEq

/-- Modelled from the spec: `JsonDatabase.findById(id)` — the stored record
whose `id` field equals the key (records are keyed by unique ids). -/
def findById (db : List CatalogItem) (id : String) : Option CatalogItem :=
  db.find? (fun r => r.id == id)

/-- Modelled from the spec: `JsonDatabase.update(id, updates)` — merge the
updates into the first record with that `id`, returning `none` (the
handler's 404) when no record has it. -/
def dbUpdate (db : List CatalogItem) (id : String) (f : CatalogItem → CatalogItem) :
    Option (List CatalogItem) :=
  updateFirst (fun r => r.id == id) f db

/-- The update object `deleteItem` passes to the database:
`{ active: false, deletedBy: req.user.id, deletedAt: now }`. -/
def markDeleted (userId ts : String) (it : CatalogItem) : CatalogItem :=
  { it with active := false, deletedBy := some userId, deletedAt := some ts }

/-- `deleteItem` (item-service): a soft delete — update the record in place,
404 when it does not exist, 200 otherwise; the record is never removed. -/
def deleteItem (db : List CatalogItem) (id userId ts : String) :
    Nat × List CatalogItem :=
  match dbUpdate db id (markDeleted userId ts) with
  | none => (404, db)
  | some db2 => (200, db2)

/-- `getItem` (item-service): `findById` with no `active` filter — 404 only
when the record is absent. -/
def getItem (db : List CatalogItem) (id : String) : Nat × Option CatalogItem :=
  match findById db id with
  | none => (404, none)
  | some it => (200, some it)

/-- `getItems` (item-service) under the default query: the filter is
`{ active: true }` (the query parameter `active` defaults to `true`), then
pagination (`skip`/`limit`).  Sorting by `createdAt` only permutes the page
and is omitted; the claims here are about membership. -/
def getItems (db : List CatalogItem) (skipN limitN : Nat) : List CatalogItem :=
  ((db.filter (fun r => r.active)).drop skipN).take limitN

/-- JS `toLowerCase` over the characters of a string. -/
def lowerChars (s : String) : List Char := s.toList.map Char.toLower

/-- Modelled from the spec: `JsonDatabase.search(q, fields)` — records one
of whose listed fields (`name`, `brand`, `description`, `category`)
contains the query as a substring, case-insensitively. -/
def searchMatches (q : String) (r : CatalogItem) : Bool :=
  containsSeq (lowerChars q) (lowerChars r.name)
  || containsSeq (lowerChars q) (lowerChars r.brand)
  || containsSeq (lowerChars q) (lowerChars r.description)
  || containsSeq (lowerChars q) (lowerChars r.category)

/-- `searchItems` (item-service): database search, then
`items.filter(i => i.active).slice(0, limit)`. -/
def searchItems (db : List CatalogItem) (q : String) (limitN : Nat) : List CatalogItem :=
  ((db.filter (searchMatches q)).filter (fun r => r.active)).take limitN

lemma updateFirst_by_key (id : String) (f : CatalogItem → CatalogItem)
    (hf : ∀ a, (f a).id = a.id) :
    ∀ (db : List CatalogItem) (it : CatalogItem),
      db.find? (fun r => r.id == id) = some it →
      ∃ db2, updateFirst (fun r => r.id == id) f db = some db2
        ∧ db2.find? (fun r => r.id == id) = some (f it)
        ∧ db2.map (fun r => r.id) = db.map (fun r => r.id) := by
  intro db
  induction db with
  | nil => intro it hit; simp at hit
  | cons a l ih =>
      intro it hit
      by_cases h : (a.id == id) = true
      · rw [show List.find? (fun r => r.id == id) (a :: l) = some a from
            List.find?_cons_of_pos l h] at hit
        obtain rfl : a = it := by simpa using hit
        refine ⟨f a :: l, ?_, ?_, ?_⟩
        · simp [updateFirst, h]
        · have hfa : ((f a).id == id) = true := by rw [hf a]; exact h
          exact List.find?_cons_of_pos l hfa
        · simp [hf a]
      · rw [show List.find? (fun r => r.id == id) (a :: l)
              = List.find? (fun r => r.id == id) l from
            List.find?_cons_of_neg l h] at hit
        obtain ⟨l2, h1, h2, h3⟩ := ih it hit
        refine ⟨a :: l2, ?_, ?_, ?_⟩
        · simp [updateFirst, h, h1]
        · exact (show List.find? (fun r => r.id == id) (a :: l2)
                  = List.find? (fun r => r.id == id) l2 from
                List.find?_cons_of_neg l2 h).trans h2
        · simp [h3]

/-- Claim C10: `DELETE /items/:id` is a soft delete.  For a stored item
(ids unique), deleting it answers 200 and afterwards `getItem` still
answers 200 with the record — now carrying `active: false` and the
`deletedBy`/`deletedAt` stamps — while no record with that id appears in
the default `getItems` listing (which filters `active: true`) or in
`searchItems` results. -/
theorem soft_delete_behaviour
    (db : List CatalogItem) (id userId ts : String) (it : CatalogItem)
    (hfind : findById db id = some it)
    (hnodup : (db.map (fun r => r.id)).Nodup) :
    (deleteItem db id userId ts).1 = 200
    ∧ getItem (deleteItem db id userId ts).2 id = (200, some (markDeleted userId ts it))
    ∧ (∀ skipN limitN,
        ((getItems (deleteItem db id userId ts).2 skipN limitN).all
          (fun r => !(r.id == id))) = true)
    ∧ (∀ q limitN,
        ((searchItems (deleteItem db id userId ts).2 q limitN).all
          (fun r => !(r.id == id))) = true) := by
  obtain ⟨db2, h1, h2, h3⟩ :=
    updateFirst_by_key id (markDeleted userId ts) (fun a => rfl) db it hfind
  have hdel : deleteItem db id userId ts = (200, db2) := by
    unfold deleteItem dbUpdate
    rw [h1]
  have hmem2 : markDeleted userId ts it ∈ db2 := List.mem_of_find?_eq_some h2
  have hnd2 : (db2.map (fun r => r.id)).Nodup := by rw [h3]; exact hnodup
  have hid : (markDeleted userId ts it).id = id := by
    have := List.find?_some h2
    simpa using this
  have hkey : ∀ r ∈ db2, r.active = true → (r.id == id) = false := by
    intro r hr hact
    by_contra hne
    have hrid : r.id = id := by
      have : (r.id == id) = true := by
        cases hb : (r.id == id) with
        | true => rfl
        | false => exact absurd hb hne
      simpa using this
    have : r = markDeleted userId ts it :=
      List.inj_on_of_nodup_map hnd2 hr hmem2 (by rw [hrid, hid])
    rw [this] at hact
    simp [markDeleted] at hact
  refine ⟨by rw [hdel], ?_, ?_, ?_⟩
  · rw [hdel]
    unfold getItem findById
    rw [h2]
  · intro skipN limitN
    rw [hdel]
    rw [List.all_eq_true]
    intro r hr
    have hr2 : r ∈ (db2.filter (fun r => r.active)) :=
      List.mem_of_mem_drop (List.mem_of_mem_take hr)
    obtain ⟨hmem, hact⟩ := List.mem_filter.mp hr2
    simpa using hkey r hmem hact
  · intro q limitN
    rw [hdel]
    rw [List.all_eq_true]
    intro r hr
    have hr2 : r ∈ ((db2.filter (searchMatches q)).filter (fun r => r.active)) :=
      List.mem_of_mem_take hr
    obtain ⟨hmem1, hact⟩ := List.mem_filter.mp hr2
    have hmem : r ∈ db2 := (List.mem_filter.mp hmem1).1
    simpa using hkey r hmem hact

/-- A two-record catalog for the C10 witness: an active rice item and an
active soap item. -/
def demoCatalog : List CatalogItem :=
  [ { id := "i1", name := "Produto Alimentos 1", category := "Alimentos",
      brand := "Marca A", description := "Arroz tipo 1", active := true,
      deletedBy := none, deletedAt := none },
    { id := "i2", name := "Produto Limpeza 1", category := "Limpeza",
      brand := "Marca B", description := "Sabao em po", active := true,
      deletedBy := none, deletedAt := none } ]

/-- Witness for C10 at concrete inputs: soft-deleting `i1` from the
two-item catalog keeps it readable by id (with the delete stamps) while the
default listing page and an `alimentos` search no longer contain `i1`. -/
theorem soft_delete_behaviour_witness :
    (deleteItem demoCatalog "i1" "u1" "2026-10-11").1 = 200
    ∧ getItem (deleteItem demoCatalog "i1" "u1" "2026-10-11").2 "i1"
        = (200, some
            { id := "i1", name := "Produto Alimentos 1", category := "Alimentos",
              brand := "Marca A", description := "Arroz tipo 1", active := false,
              deletedBy := some "u1", deletedAt := some "2026-10-11" })
    ∧ ((getItems (deleteItem demoCatalog "i1" "u1" "2026-10-11").2 0 10).all
        (fun r => !(r.id == "i1"))) = true
    ∧ ((searchItems (deleteItem demoCatalog "i1" "u1" "2026-10-11").2 "alimentos" 20).all
        (fun r => !(r.id == "i1"))) = true := by
  have h := soft_delete_behaviour demoCatalog "i1" "u1" "2026-10-11"
    { id := "i1", name := "Produto Alimentos 1", category := "Alimentos",
      brand := "Marca A", description := "Arroz tipo 1", active := true,
      deletedBy := none, deletedAt := none }
    (by decide) (by decide)
  exact ⟨h.1, h.2.1, h.2.2.1 0 10, h.2.2.2 "alimentos" 20⟩

end ShoppingMS
